import Mathlib

/-!
Shallow embedding of the playback controller in
`src/frontend/src/player_view.rs` (readtomyshoe frontend).

Modelling choices:
* `f64` is modelled as `F64`: either an exact rational (`finite q`), `inf`,
  `negInf` or `nan`.  The arithmetic operations used by the source
  (`+`, `f64::min`, `f64::max`, `is_finite`, `>=`) follow IEEE-754 / Rust
  semantics (Rust `f64::min`/`f64::max` return the other operand when one
  argument is NaN; comparisons with NaN are false).  Rounding of finite
  values is not modelled; all claims involve exactly representable values.
* The DOM audio element (`HtmlAudioElement`) is a record `AudioElem`; the
  speed `<select>` element's current value is carried in `Dom`.
* Calls into the browser APIs (audio element mutation, MediaSession,
  `set_timeout`, IndexedDB persistence) are recorded as an `Effect` trace;
  functions that mutate the audio element also return its updated state.
* `spawn_local`ed futures that await the article store are modelled as
  `PendingTask` values returned by `Player.update`; the body that runs when
  such a future resolves is a separate `run_*_task` function taking the
  resolution outcome as an argument.  The inner future spawned by `play()`
  performs a single device `play()` call and only logs on error, so its
  device call is recorded directly in the trace of `play`.
-/

/-- Model of Rust `f64`: an exact rational, an infinity, or NaN. -/
inductive F64 where
  | finite (q : ℚ)
  | inf
  | negInf
  | nan
deriving DecidableEq, Repr

namespace F64

/-- IEEE addition as used by Rust `+` on `f64` (sign of zero ignored). -/
def add : F64 → F64 → F64
  | nan, _ => nan
  | _, nan => nan
  | inf, negInf => nan
  | negInf, inf => nan
  | inf, _ => inf
  | _, inf => inf
  | negInf, _ => negInf
  | _, negInf => negInf
  | finite a, finite b => finite (a + b)

/-- Rust `f64::min`: if one argument is NaN the other is returned. -/
def fmin : F64 → F64 → F64
  | nan, y => y
  | x, nan => x
  | negInf, _ => negInf
  | _, negInf => negInf
  | finite a, inf => finite a
  | inf, finite b => finite b
  | inf, inf => inf
  | finite a, finite b => finite (if a ≤ b then a else b)

/-- Rust `f64::max`: if one argument is NaN the other is returned. -/
def fmax : F64 → F64 → F64
  | nan, y => y
  | x, nan => x
  | inf, _ => inf
  | _, inf => inf
  | finite a, negInf => finite a
  | negInf, finite b => finite b
  | negInf, negInf => negInf
  | finite a, finite b => finite (if a ≤ b then b else a)

/-- Rust `f64::is_finite`. -/
def isFinite : F64 → Bool
  | finite _ => true
  | _ => false

/-- IEEE `x <= y` (false whenever an operand is NaN), as Rust `<=`. -/
def ble : F64 → F64 → Bool
  | nan, _ => false
  | _, nan => false
  | negInf, _ => true
  | finite _, negInf => false
  | inf, negInf => false
  | finite a, finite b => decide (a ≤ b)
  | finite _, inf => true
  | inf, finite _ => false
  | inf, inf => true

/-- IEEE `x >= y` as Rust `>=`: `y <= x`. -/
def bge (x y : F64) : Bool := ble y x

/-- Rust unary `-` on `f64` (sign of zero ignored). -/
def neg : F64 → F64
  | finite q => finite (-q)
  | inf => negInf
  | negInf => inf
  | nan => nan

end F64

/-- Handle of a cached article (`CachedArticleHandle`, a tuple struct over
`String` in `queue_view.rs`: `handle.0` is rendered as the label text and
logged).  `val` models the `.0` field. -/
structure CachedArticleHandle where
  val : String
deriving DecidableEq, Repr

/-- A resolved article (`CachedArticle`): MP3 bytes plus a title. -/
structure CachedArticle where
  audio_blob : List Nat
  title : String
deriving DecidableEq, Repr

/-- Type `PlayerState`: what is playing, how far in, and how fast. -/
structure PlayerState where
  now_playing : Option CachedArticleHandle
  elapsed : Option F64
  playback_speed : F64
deriving DecidableEq, Repr

/-- Impl of `PlayerState::default()`. -/
def PlayerState.default : PlayerState :=
  { now_playing := none, elapsed := none, playback_speed := F64.finite 1 }

/-- The `<audio>` element's observable state used by the controller. -/
structure AudioElem where
  currentTime : F64
  duration : F64
  playbackRate : F64
  defaultPlaybackRate : F64
  src : Option (List Nat)
  paused : Bool
deriving DecidableEq, Repr

/-- The pieces of the DOM the controller reads and writes: the audio element
and the current value of the playback-speed `<select>`. -/
structure Dom where
  audio : AudioElem
  speedSelectorValue : String
deriving DecidableEq, Repr

/-- A recorded call into a browser API. -/
inductive Effect where
  | pauseDevice
  | playDevice
  | setSrc (audioBlob : List Nat)
  | setMetadata (title : String)
  | setCurrentTime (t : F64)
  | setPlaybackRate (r : F64)
  | setDefaultPlaybackRate (r : F64)
  | setPositionState (pos dur rate : F64)
  | runAfterDelay (ms : Int)
  | savePlayerState (s : PlayerState)
deriving DecidableEq, Repr

/-- A future handed to `spawn_local` that suspends on the article store. -/
inductive PendingTask where
  /-- The future spawned by `play_article_handle`: awaits
  `caching::load_article(handle)` and on success plays the article. -/
  | playArticleTask (h : CachedArticleHandle)
  /-- The future spawned by `set_audio_source_by_handle`: awaits
  `caching::load_article(handle)` and on success installs the article. -/
  | setSourceTask (h : CachedArticleHandle)
  /-- The future spawned by the `SaveState` arm: awaits
  `caching::save_player_state(snapshot)`. -/
  | saveStateTask (snapshot : PlayerState)
deriving DecidableEq, Repr

-- Constants from the source.

/-- Constant `PLAYER_STATE_SAVE_FREQ`: milliseconds between state saves. -/
def PLAYER_STATE_SAVE_FREQ : Int := 10000

/-- Constant `JUMP_SIZE`: always jump by 10 sec. -/
def JUMP_SIZE : F64 := F64.finite 10

-- Device / MediaSession helper functions of the source, in state-and-trace
-- style: each takes the audio element it reads, and returns the updated
-- element together with the list of browser-API calls it made.

/-- Source `set_current_time(time)`: sets the audio element's playback time. -/
def set_current_time (a : AudioElem) (time : F64) : AudioElem × List Effect :=
  ({ a with currentTime := time }, [Effect.setCurrentTime time])

/-- Source `set_playback_speed(speed)`: sets the audio element's playback rate. -/
def set_playback_speed (a : AudioElem) (speed : F64) : AudioElem × List Effect :=
  ({ a with playbackRate := speed }, [Effect.setPlaybackRate speed])

/-- Source `jump_offset(audio_elem, offset)`: clamps the new time into
`[0, duration]` via `f64::min`/`f64::max` and sets it unconditionally. -/
def jump_offset (a : AudioElem) (offset : F64) : AudioElem × List Effect :=
  let new_time := F64.fmin a.duration (F64.add a.currentTime offset)
  let new_time := F64.fmax (F64.finite 0) new_time
  set_current_time a new_time

/-- Source `update_playback_state()`: reads position, duration and rate from the
audio element; if any is outside `[0, ∞)` it returns without touching the
MediaSession, otherwise it pushes the position state. -/
def update_playback_state (a : AudioElem) : List Effect :=
  let pos := a.currentTime
  let dur := a.duration
  let rate := a.playbackRate
  if !([pos, dur, rate].all fun x => x.isFinite && x.bge (F64.finite 0)) then
    []
  else
    [Effect.setPositionState pos dur rate]

/-- Source `jump_forward()`: jump by `JUMP_SIZE`, then refresh the MediaSession. -/
def jump_forward (a : AudioElem) : AudioElem × List Effect :=
  let (a1, es1) := jump_offset a JUMP_SIZE
  (a1, es1 ++ update_playback_state a1)

/-- Source `jump_backward()`: jump by `-JUMP_SIZE`, then refresh the MediaSession. -/
def jump_backward (a : AudioElem) : AudioElem × List Effect :=
  let (a1, es1) := jump_offset a (F64.neg JUMP_SIZE)
  (a1, es1 ++ update_playback_state a1)

/-- Source `play()`: spawns a future whose only device call is `audio_elem.play()`
(the await result is only logged); the device call is recorded here. -/
def play (a : AudioElem) : AudioElem × List Effect :=
  ({ a with paused := false }, [Effect.playDevice])

/-- Source `pause()`: calls `audio_elem.pause()`. -/
def pause (a : AudioElem) : AudioElem × List Effect :=
  ({ a with paused := true }, [Effect.pauseDevice])

/-- Source `set_audio_source(art)`: pause, build a blob from the MP3 bytes, push the
title to the MediaSession metadata, and point the element's `src` at the
blob (the blob URL is identified with the bytes it references). -/
def set_audio_source (a : AudioElem) (art : CachedArticle) : AudioElem × List Effect :=
  let (a1, es1) := pause a
  let a2 := { a1 with src := some art.audio_blob }
  (a2, es1 ++ [Effect.setMetadata art.title, Effect.setSrc art.audio_blob])

/-- Source `play_article(art)`: set the source, then play. -/
def play_article (a : AudioElem) (art : CachedArticle) : AudioElem × List Effect :=
  let (a1, es1) := set_audio_source a art
  let (a2, es2) := play a1
  (a2, es1 ++ es2)

/-- Body of the future spawned by `set_audio_source_by_handle`, applied to
the outcome of `caching::load_article(handle)`: install the article on
success, log and return on failure. -/
def run_set_source_task (a : AudioElem) : Except String CachedArticle → AudioElem × List Effect
  | Except.ok article => set_audio_source a article
  | Except.error _ => (a, [])

/-- Body of the future spawned by `play_article_handle`, applied to the
outcome of `caching::load_article(handle)`: play the article on success,
log and return on failure. -/
def run_play_article_task (a : AudioElem) : Except String CachedArticle → AudioElem × List Effect
  | Except.ok article => play_article a article
  | Except.error _ => (a, [])

/-- Body of the future spawned by the `SaveState` arm: awaits
`caching::save_player_state(&state_copy)` and logs the outcome. -/
def run_save_state_task (snapshot : PlayerState) : List Effect :=
  [Effect.savePlayerState snapshot]

/-- Source `play_article_handle(handle)`: a synchronous (Safari-workaround) pause,
then spawn the load-and-play future. -/
def play_article_handle (a : AudioElem) (h : CachedArticleHandle) :
    AudioElem × List Effect × List PendingTask :=
  let (a1, es1) := pause a
  (a1, es1, [PendingTask.playArticleTask h])

/-- Source `set_audio_source_by_handle(handle)`: spawn the load-and-install
future; nothing happens synchronously. -/
def set_audio_source_by_handle (h : CachedArticleHandle) : List PendingTask :=
  [PendingTask.setSourceTask h]

/-- Source `run_after_delay(closure, secs)`: registers the closure with
`set_timeout` for `secs` milliseconds (failure is only logged). -/
def run_after_delay (secs : Int) : List Effect :=
  [Effect.runAfterDelay secs]

-- Model of Rust `str::parse::<f64>` (`f64::from_str`).  Grammar:
-- Float ::= Sign? ( 'inf' | 'infinity' | 'nan' | Number )
-- Number ::= ( Digit+ | Digit+ '.' Digit* | Digit* '.' Digit+ ) Exp?
-- Exp ::= ('e' | 'E') Sign? Digit+
-- with 'inf' / 'infinity' / 'nan' matched case-insensitively and the whole
-- string consumed.  Finite results are kept exact as rationals.

/-- Value of a digit string, most significant first. -/
def digitsToNat (ds : List Char) : Nat :=
  ds.foldl (fun n c => 10 * n + (c.toNat - 48)) 0

/-- Strip an optional leading sign; `true` means negative. -/
def stripSign : List Char → Bool × List Char
  | [] => (false, [])
  | c :: rest =>
    if c = '+' then (false, rest)
    else if c = '-' then (true, rest)
    else (false, c :: rest)

/-- Parse the optional exponent suffix and apply it to mantissa `m`;
fails on trailing characters. -/
def applyExp (m : ℚ) : List Char → Option ℚ
  | [] => some m
  | c :: rest =>
    if c = 'e' ∨ c = 'E' then
      let (eneg, rest1) := stripSign rest
      let eDigits := rest1.takeWhile Char.isDigit
      let rest2 := rest1.drop eDigits.length
      if eDigits.isEmpty ∨ ¬rest2.isEmpty then none
      else
        let e : ℤ := digitsToNat eDigits
        some (m * (10 : ℚ) ^ (if eneg then -e else e))
    else none

/-- Parse a significand without a decimal point, plus optional exponent. -/
def parseNoDot (intDigits rest : List Char) : Option ℚ :=
  if intDigits.isEmpty then none
  else applyExp (digitsToNat intDigits : ℚ) rest

/-- Parse an unsigned decimal significand with optional exponent. -/
def parseNumber (cs : List Char) : Option ℚ :=
  let intDigits := cs.takeWhile Char.isDigit
  let rest1 := cs.drop intDigits.length
  match rest1 with
  | c :: rest2 =>
    if c = '.' then
      let fracDigits := rest2.takeWhile Char.isDigit
      let rest3 := rest2.drop fracDigits.length
      if intDigits.isEmpty ∧ fracDigits.isEmpty then none
      else
        let m : ℚ :=
          (digitsToNat intDigits : ℚ) +
            (digitsToNat fracDigits : ℚ) / (10 : ℚ) ^ fracDigits.length
        applyExp m rest3
    else parseNoDot intDigits (c :: rest2)
  | [] => parseNoDot intDigits []

/-- Rust `str::parse::<f64>()` on the whole string (finite values exact). -/
def parse_f64 (s : String) : Option F64 :=
  let (neg, rest) := stripSign s.data
  let lower := rest.map Char.toLower
  if lower = ['i', 'n', 'f'] ∨ lower = ['i', 'n', 'f', 'i', 'n', 'i', 't', 'y'] then
    some (if neg then F64.negInf else F64.inf)
  else if lower = ['n', 'a', 'n'] then
    some F64.nan
  else
    match parseNumber rest with
    | some q => some (F64.finite (if neg then -q else q))
    | none => none

/-- Source `update_playback_speed()`: parse the speed selector's value (falling
back to `1.0`), set the element's current and default playback rate, refresh
the MediaSession, and return the selected rate. -/
def update_playback_speed (selectorValue : String) (a : AudioElem) :
    F64 × AudioElem × List Effect :=
  let rate := (parse_f64 selectorValue).getD (F64.finite 1)
  let a1 := { a with playbackRate := rate }
  let a2 := { a1 with defaultPlaybackRate := rate }
  let es := [Effect.setPlaybackRate rate, Effect.setDefaultPlaybackRate rate] ++
    update_playback_state a2
  (rate, a2, es)

-- The Player component.

/-- Type `PlayerMsg`.  `UpdatePlaybackSpeed` carries no payload in the source;
the selector value is read from the DOM, which here lives in `Dom`. -/
inductive PlayerMsg where
  | PlayHandle (h : CachedArticleHandle)
  | JumpForward
  | JumpBackward
  | UpdatePlaybackSpeed
  | SetState (s : PlayerState)
  | SaveState (elapsed : F64)
deriving DecidableEq, Repr

/-- Result of one `Player::update` call: the new `PlayerState`, the updated
DOM, the synchronous browser-API calls, the futures handed to
`spawn_local`, and the returned re-render flag. -/
structure UpdateResult where
  state : PlayerState
  dom : Dom
  effects : List Effect
  tasks : List PendingTask
  rerender : Bool
deriving DecidableEq, Repr

/-- Impl of `Player::update`, arm by arm. -/
def Player.update (state : PlayerState) (dom : Dom) : PlayerMsg → UpdateResult
  | PlayerMsg.PlayHandle h =>
    let (a1, es, ts) := play_article_handle dom.audio h
    { state := { state with now_playing := some h },
      dom := { dom with audio := a1 },
      effects := es, tasks := ts, rerender := false }
  | PlayerMsg.JumpForward =>
    let (a1, es) := jump_forward dom.audio
    { state := state, dom := { dom with audio := a1 },
      effects := es, tasks := [], rerender := false }
  | PlayerMsg.JumpBackward =>
    let (a1, es) := jump_backward dom.audio
    { state := state, dom := { dom with audio := a1 },
      effects := es, tasks := [], rerender := false }
  | PlayerMsg.UpdatePlaybackSpeed =>
    let (rate, a1, es) := update_playback_speed dom.speedSelectorValue dom.audio
    { state := { state with playback_speed := rate },
      dom := { dom with audio := a1 },
      effects := es, tasks := [], rerender := false }
  | PlayerMsg.SetState s =>
    match s.now_playing with
    | some h =>
      let ts := set_audio_source_by_handle h
      let (a1, es1) := set_current_time dom.audio (s.elapsed.getD (F64.finite 0))
      let (a2, es2) := set_playback_speed a1 s.playback_speed
      { state := s, dom := { dom with audio := a2 },
        effects := es1 ++ es2, tasks := ts, rerender := true }
    | none =>
      { state := s, dom := dom, effects := [], tasks := [], rerender := true }
  | PlayerMsg.SaveState elapsed =>
    let state1 := { state with elapsed := some elapsed }
    let state_copy := state1
    { state := state1, dom := dom,
      effects := run_after_delay PLAYER_STATE_SAVE_FREQ,
      tasks := [PendingTask.saveStateTask state_copy], rerender := false }

/-- The now-playing label text computed by `Player::view`:
`now_playing.map(|c| c.0.clone()).unwrap_or(String::default())`. -/
def now_playing_str (state : PlayerState) : String :=
  (state.now_playing.map fun c => c.val).getD ""

/-- Process a list of messages in order, accumulating the synchronous
effect trace (spawned futures resolve later and are not interleaved here). -/
def processMsgs (state : PlayerState) (dom : Dom) :
    List PlayerMsg → PlayerState × Dom × List Effect
  | [] => (state, dom, [])
  | m :: ms =>
    let r := Player.update state dom m
    let (s1, d1, es) := processMsgs r.state r.dom ms
    (s1, d1, r.effects ++ es)

/-- Whether a message is a `SaveState`. -/
def isSaveState : PlayerMsg → Bool
  | PlayerMsg.SaveState _ => true
  | _ => false

/-- Whether an effect is a `set_timeout` reschedule of the autosave timer. -/
def isReschedule : Effect → Bool
  | Effect.runAfterDelay _ => true
  | _ => false

/-- Number of autosave reschedule calls in a trace. -/
def countReschedules (es : List Effect) : Nat :=
  es.countP fun e => isReschedule e

/-- The claim's notion of an invalid snapshot component: negative,
infinite, or NaN (written from the spec's words, for comparison with the
code's `is_finite && x >= 0.0` guard). -/
def badSnapshotVal (x : F64) : Prop :=
  (∃ q : ℚ, x = F64.finite q ∧ q < 0) ∨ x = F64.inf ∨ x = F64.negInf ∨ x = F64.nan

-- Theorems.

/-- The code's snapshot guard fails exactly on negative, infinite or NaN
values. -/
lemma badSnapshotVal_iff (x : F64) :
    badSnapshotVal x ↔ (x.isFinite && x.bge (F64.finite 0)) = false := by
  cases x with
  | finite q =>
    simp [badSnapshotVal, F64.isFinite, F64.bge, F64.ble]
  | inf => simp [badSnapshotVal, F64.isFinite]
  | negInf => simp [badSnapshotVal, F64.isFinite]
  | nan => simp [badSnapshotVal, F64.isFinite]

/-- Claim C1: for every finite current position `elapsed ∈ [0, duration]`
and every offset `o`, `jump_offset` sets the device time to a single value
clamped into `[0, duration]`. -/
theorem C1_jump_offset_clamps (a : AudioElem) (o : F64) (e d : ℚ)
    (hdur : a.duration = F64.finite d) (hcur : a.currentTime = F64.finite e)
    (h0 : 0 ≤ e) (hed : e ≤ d) :
    ∃ t : ℚ, (jump_offset a o).2 = [Effect.setCurrentTime (F64.finite t)] ∧
      0 ≤ t ∧ t ≤ d := by
  have h0d : (0 : ℚ) ≤ d := le_trans h0 hed
  cases o with
  | finite q =>
    refine ⟨max 0 (min d (e + q)), ?_, le_max_left _ _, ?_⟩
    · simp [jump_offset, set_current_time, hdur, hcur, F64.add, F64.fmin, F64.fmax,
        min_def, max_def]
    · exact max_le h0d (min_le_left _ _)
  | inf =>
    refine ⟨max 0 d, ?_, le_max_left _ _, max_le h0d le_rfl⟩
    simp [jump_offset, set_current_time, hdur, hcur, F64.add, F64.fmin, F64.fmax,
      max_def]
  | negInf =>
    refine ⟨0, ?_, le_rfl, h0d⟩
    simp [jump_offset, set_current_time, hdur, hcur, F64.add, F64.fmin, F64.fmax]
  | nan =>
    refine ⟨max 0 d, ?_, le_max_left _ _, max_le h0d le_rfl⟩
    simp [jump_offset, set_current_time, hdur, hcur, F64.add, F64.fmin, F64.fmax,
      max_def]

/-- Witness for C1 at the claim's concrete examples: jumping from 5 by -10
with duration 100 sets time 0, and jumping from 95 by +10 sets time 100. -/
theorem C1_jump_offset_clamps_witness :
    (∃ t : ℚ,
      (jump_offset
        { currentTime := F64.finite 5, duration := F64.finite 100,
          playbackRate := F64.finite 1, defaultPlaybackRate := F64.finite 1,
          src := none, paused := false } (F64.finite (-10))).2 =
        [Effect.setCurrentTime (F64.finite t)] ∧ 0 ≤ t ∧ t ≤ 100) ∧
    (jump_offset
      { currentTime := F64.finite 5, duration := F64.finite 100,
        playbackRate := F64.finite 1, defaultPlaybackRate := F64.finite 1,
        src := none, paused := false } (F64.finite (-10))).2 =
      [Effect.setCurrentTime (F64.finite 0)] ∧
    (jump_offset
      { currentTime := F64.finite 95, duration := F64.finite 100,
        playbackRate := F64.finite 1, defaultPlaybackRate := F64.finite 1,
        src := none, paused := false } (F64.finite 10)).2 =
      [Effect.setCurrentTime (F64.finite 100)] :=
  ⟨C1_jump_offset_clamps _ (F64.finite (-10)) 5 100 rfl rfl (by norm_num) (by norm_num),
   by norm_num [jump_offset, set_current_time, F64.add, F64.fmin, F64.fmax],
   by norm_num [jump_offset, set_current_time, F64.add, F64.fmin, F64.fmax]⟩

/-- Claim C2: the snapshot push makes no control-surface call whenever any
of position, duration or rate is negative, infinite or NaN; otherwise it
forwards exactly the tuple read from the device. -/
theorem C2_snapshot_guard (a : AudioElem) :
    ((badSnapshotVal a.currentTime ∨ badSnapshotVal a.duration ∨
        badSnapshotVal a.playbackRate) →
      update_playback_state a = []) ∧
    (¬(badSnapshotVal a.currentTime ∨ badSnapshotVal a.duration ∨
        badSnapshotVal a.playbackRate) →
      update_playback_state a =
        [Effect.setPositionState a.currentTime a.duration a.playbackRate]) := by
  constructor
  · intro h
    have hf : ([a.currentTime, a.duration, a.playbackRate].all
        fun x => x.isFinite && x.bge (F64.finite 0)) = false := by
      simp only [List.all_cons, List.all_nil, Bool.and_true]
      rcases h with h | h | h <;> rw [(badSnapshotVal_iff _).1 h] <;> simp
    simp [update_playback_state, hf]
  · intro h
    push_neg at h
    obtain ⟨h1, h2, h3⟩ := h
    have g1 : (a.currentTime.isFinite && a.currentTime.bge (F64.finite 0)) = true := by
      cases hb : (a.currentTime.isFinite && a.currentTime.bge (F64.finite 0)) with
      | false => exact absurd ((badSnapshotVal_iff _).2 hb) h1
      | true => rfl
    have g2 : (a.duration.isFinite && a.duration.bge (F64.finite 0)) = true := by
      cases hb : (a.duration.isFinite && a.duration.bge (F64.finite 0)) with
      | false => exact absurd ((badSnapshotVal_iff _).2 hb) h2
      | true => rfl
    have g3 : (a.playbackRate.isFinite && a.playbackRate.bge (F64.finite 0)) = true := by
      cases hb : (a.playbackRate.isFinite && a.playbackRate.bge (F64.finite 0)) with
      | false => exact absurd ((badSnapshotVal_iff _).2 hb) h3
      | true => rfl
    simp [update_playback_state, g1, g2, g3]

/-- Witness for C2: with a NaN rate the push is a no-op; with position 5,
duration 100, rate 1 it forwards exactly that tuple. -/
theorem C2_snapshot_guard_witness :
    update_playback_state
      { currentTime := F64.finite 5, duration := F64.finite 100,
        playbackRate := F64.nan, defaultPlaybackRate := F64.finite 1,
        src := none, paused := false } = [] ∧
    update_playback_state
      { currentTime := F64.finite 5, duration := F64.finite 100,
        playbackRate := F64.finite 1, defaultPlaybackRate := F64.finite 1,
        src := none, paused := false } =
      [Effect.setPositionState (F64.finite 5) (F64.finite 100) (F64.finite 1)] := by
  constructor
  · exact (C2_snapshot_guard _).1 (Or.inr (Or.inr (Or.inr (Or.inr (Or.inr rfl)))))
  · refine (C2_snapshot_guard _).2 ?_
    intro h
    rcases h with h | h | h <;>
      exact absurd ((badSnapshotVal_iff _).1 h) (by decide)

/-- Claim C3: an unparseable speed-selector value falls back to playback
speed 1.0 (never 0, NaN or negative), a parseable one is stored as parsed,
and the stored speed always equals the rate applied to the device (both
current and default rate). -/
theorem C3_update_playback_speed (s : PlayerState) (d : Dom) :
    (parse_f64 d.speedSelectorValue = none →
      (Player.update s d PlayerMsg.UpdatePlaybackSpeed).state.playback_speed =
          F64.finite 1 ∧
      (Player.update s d PlayerMsg.UpdatePlaybackSpeed).state.playback_speed ≠
          F64.finite 0 ∧
      (Player.update s d PlayerMsg.UpdatePlaybackSpeed).state.playback_speed ≠
          F64.nan ∧
      ∀ q : ℚ,
        (Player.update s d PlayerMsg.UpdatePlaybackSpeed).state.playback_speed =
            F64.finite q → 0 < q) ∧
    (∀ x : F64, parse_f64 d.speedSelectorValue = some x →
      (Player.update s d PlayerMsg.UpdatePlaybackSpeed).state.playback_speed = x) ∧
    (Player.update s d PlayerMsg.UpdatePlaybackSpeed).dom.audio.playbackRate =
      (Player.update s d PlayerMsg.UpdatePlaybackSpeed).state.playback_speed ∧
    (Player.update s d PlayerMsg.UpdatePlaybackSpeed).dom.audio.defaultPlaybackRate =
      (Player.update s d PlayerMsg.UpdatePlaybackSpeed).state.playback_speed := by
  cases hp : parse_f64 d.speedSelectorValue with
  | none =>
    have h1 : (Player.update s d PlayerMsg.UpdatePlaybackSpeed).state.playback_speed =
        F64.finite 1 := by
      simp [Player.update, update_playback_speed, hp]
    refine ⟨fun _ => ⟨h1, ?_, ?_, ?_⟩, fun x hx => ?_, ?_, ?_⟩
    · rw [h1]
      intro hc
      exact absurd (F64.finite.inj hc) (by norm_num)
    · rw [h1]
      intro hc
      exact F64.noConfusion hc
    · intro q hq
      rw [h1] at hq
      rw [← F64.finite.inj hq]
      norm_num
    · exact Option.noConfusion hx
    · simp [Player.update, update_playback_speed, hp]
    · simp [Player.update, update_playback_speed, hp]
  | some x =>
    refine ⟨fun hn => ?_, fun y hy => ?_, ?_, ?_⟩
    · exact Option.noConfusion hn
    · simp [Player.update, update_playback_speed, hp, Option.some.inj hy]
    · simp [Player.update, update_playback_speed, hp]
    · simp [Player.update, update_playback_speed, hp]

/-- Witness for C3: selector value abc falls back to speed 1.0, selector
value 1.5 stores speed 1.5. -/
theorem C3_update_playback_speed_witness :
    (Player.update PlayerState.default
      { audio :=
          { currentTime := F64.finite 0, duration := F64.finite 100,
            playbackRate := F64.finite 1, defaultPlaybackRate := F64.finite 1,
            src := none, paused := false },
        speedSelectorValue := "abc" }
      PlayerMsg.UpdatePlaybackSpeed).state.playback_speed = F64.finite 1 ∧
    (Player.update PlayerState.default
      { audio :=
          { currentTime := F64.finite 0, duration := F64.finite 100,
            playbackRate := F64.finite 1, defaultPlaybackRate := F64.finite 1,
            src := none, paused := false },
        speedSelectorValue := "1.5" }
      PlayerMsg.UpdatePlaybackSpeed).state.playback_speed = F64.finite (3 / 2) := by
  constructor
  · exact ((C3_update_playback_speed _ _).1 (by decide)).1
  · refine (C3_update_playback_speed _ _).2.1 (F64.finite (3 / 2)) ?_
    simp +decide only [parse_f64, parseNumber, parseNoDot, applyExp, stripSign,
      digitsToNat, List.takeWhile, List.drop, List.map, List.foldl, List.length,
      List.isEmpty]
    simp only [show (49 : Nat) - 48 = 1 from rfl, show (53 : Nat) - 48 = 5 from rfl,
      show Char.toNat '1' = 49 from rfl, show Char.toNat '5' = 53 from rfl]
    norm_num

/-- A position-state push only ever carries values that pass the
finite-and-nonnegative guard. -/
lemma mem_update_playback_state (a : AudioElem) (p q r : F64)
    (h : Effect.setPositionState p q r ∈ update_playback_state a) :
    (p.isFinite && p.bge (F64.finite 0)) = true ∧
    (q.isFinite && q.bge (F64.finite 0)) = true ∧
    (r.isFinite && r.bge (F64.finite 0)) = true := by
  simp only [update_playback_state] at h
  split at h
  · exact absurd h (List.not_mem_nil _)
  · rename_i hg
    simp only [Bool.not_eq_true', List.all_cons, List.all_nil, Bool.and_true] at hg
    rcases Bool.eq_false_or_eq_true
        (a.currentTime.isFinite && a.currentTime.bge (F64.finite 0) &&
          (a.duration.isFinite && a.duration.bge (F64.finite 0) &&
            (a.playbackRate.isFinite && a.playbackRate.bge (F64.finite 0)))) with hb | hb
    case inr => exact absurd hb hg
    case inl =>
      simp only [List.mem_singleton, Effect.setPositionState.injEq] at h
      obtain ⟨hp, hq, hr⟩ := h
      subst hp
      subst hq
      subst hr
      simp only [Bool.and_eq_true] at hb
      exact ⟨by simp [hb.1.1, hb.1.2], by simp [hb.2.1.1, hb.2.1.2],
        by simp [hb.2.2.1, hb.2.2.2]⟩

/-- Counterexample to claim C4: with a NaN duration (hence not finite), the
jump operation still sets a new current time on the device — the seek is
not skipped. -/
theorem C4_counterexample :
    (F64.isFinite F64.nan = false) ∧
    (jump_forward
      { currentTime := F64.finite 5, duration := F64.nan,
        playbackRate := F64.finite 1, defaultPlaybackRate := F64.finite 1,
        src := none, paused := false }).2 =
      [Effect.setCurrentTime (F64.finite 15)] := by
  constructor
  · rfl
  · norm_num [jump_forward, jump_offset, set_current_time, update_playback_state,
      F64.add, F64.fmin, F64.fmax, JUMP_SIZE, F64.isFinite, F64.bge, F64.ble]

/-- Claim C4 (amended): for JumpForward and JumpBackward the seek itself is
unconditional — `jump_offset` always sets a (min/max-clamped) new current
time on the device even when duration or position is non-finite or
negative; the finite-and-nonnegative guard applies only to the subsequent
control-surface snapshot push, whose forwarded values always satisfy it. -/
theorem C4_amended_jump_always_seeks (a : AudioElem) :
    (∃ t rest, (jump_forward a).2 = Effect.setCurrentTime t :: rest) ∧
    (∃ t rest, (jump_backward a).2 = Effect.setCurrentTime t :: rest) ∧
    (∀ p q r, Effect.setPositionState p q r ∈ (jump_forward a).2 →
      (p.isFinite && p.bge (F64.finite 0)) = true ∧
      (q.isFinite && q.bge (F64.finite 0)) = true ∧
      (r.isFinite && r.bge (F64.finite 0)) = true) ∧
    (∀ p q r, Effect.setPositionState p q r ∈ (jump_backward a).2 →
      (p.isFinite && p.bge (F64.finite 0)) = true ∧
      (q.isFinite && q.bge (F64.finite 0)) = true ∧
      (r.isFinite && r.bge (F64.finite 0)) = true) := by
  have hf : (jump_forward a).2 =
      Effect.setCurrentTime
          (F64.fmax (F64.finite 0) (F64.fmin a.duration (F64.add a.currentTime JUMP_SIZE))) ::
        update_playback_state (jump_offset a JUMP_SIZE).1 := by
    simp [jump_forward, jump_offset, set_current_time]
  have hb : (jump_backward a).2 =
      Effect.setCurrentTime
          (F64.fmax (F64.finite 0)
            (F64.fmin a.duration (F64.add a.currentTime (F64.neg JUMP_SIZE)))) ::
        update_playback_state (jump_offset a (F64.neg JUMP_SIZE)).1 := by
    simp [jump_backward, jump_offset, set_current_time]
  refine ⟨⟨_, _, hf⟩, ⟨_, _, hb⟩, fun p q r hm => ?_, fun p q r hm => ?_⟩
  · rw [hf] at hm
    rcases List.mem_cons.1 hm with hm | hm
    · exact Effect.noConfusion hm
    · exact mem_update_playback_state _ p q r hm
  · rw [hb] at hm
    rcases List.mem_cons.1 hm with hm | hm
    · exact Effect.noConfusion hm
    · exact mem_update_playback_state _ p q r hm

/-- Witness for the amended C4 at a device with position 5 and duration
100: the jump seeks, and the pushed snapshot values pass the guard. -/
theorem C4_amended_jump_always_seeks_witness :
    (∃ t rest,
      (jump_forward
        { currentTime := F64.finite 5, duration := F64.finite 100,
          playbackRate := F64.finite 1, defaultPlaybackRate := F64.finite 1,
          src := none, paused := false }).2 = Effect.setCurrentTime t :: rest) ∧
    ((F64.finite 15).isFinite && (F64.finite 15).bge (F64.finite 0)) = true ∧
    ((F64.finite 100).isFinite && (F64.finite 100).bge (F64.finite 0)) = true ∧
    ((F64.finite 1).isFinite && (F64.finite 1).bge (F64.finite 0)) = true := by
  have hc := C4_amended_jump_always_seeks
    { currentTime := F64.finite 5, duration := F64.finite 100,
      playbackRate := F64.finite 1, defaultPlaybackRate := F64.finite 1,
      src := none, paused := false }
  refine ⟨hc.1, hc.2.2.1 (F64.finite 15) (F64.finite 100) (F64.finite 1) ?_⟩
  norm_num [jump_forward, jump_offset, set_current_time, update_playback_state,
    F64.add, F64.fmin, F64.fmax, JUMP_SIZE, F64.isFinite, F64.bge, F64.ble]

/-- Claim C5: `PlayHandle(handle)` records `now_playing = Some(handle)`
synchronously (the resolution future is still pending in the returned task
list), leaves `elapsed` and `playback_speed` untouched, and a failed
resolution performs no further mutation at all. -/
theorem C5_play_handle_optimistic (s : PlayerState) (d : Dom)
    (h : CachedArticleHandle) :
    (Player.update s d (PlayerMsg.PlayHandle h)).state.now_playing = some h ∧
    (Player.update s d (PlayerMsg.PlayHandle h)).state.elapsed = s.elapsed ∧
    (Player.update s d (PlayerMsg.PlayHandle h)).state.playback_speed =
      s.playback_speed ∧
    (Player.update s d (PlayerMsg.PlayHandle h)).tasks =
      [PendingTask.playArticleTask h] ∧
    ∀ (a : AudioElem) (err : String),
      run_play_article_task a (Except.error err) = (a, []) := by
  refine ⟨?_, ?_, ?_, ?_, fun a err => rfl⟩ <;>
    simp [Player.update, play_article_handle, pause]

/-- An autosave-timer reschedule never appears in a MediaSession refresh. -/
lemma runAfterDelay_not_mem_update_playback_state (a : AudioElem) (n : Int) :
    Effect.runAfterDelay n ∉ update_playback_state a := by
  simp only [update_playback_state]
  split <;> simp

/-- A MediaSession refresh contributes no reschedule calls. -/
lemma mem_update_playback_state_not_reschedule (a : AudioElem) :
    ∀ e ∈ update_playback_state a, isReschedule e = false := by
  simp only [update_playback_state]
  split
  · simp
  · intro e he
    simp only [List.mem_singleton] at he
    subst he
    rfl

/-- Exactly the `SaveState` arm issues a reschedule call, and exactly one. -/
lemma countReschedules_update (s : PlayerState) (d : Dom) (m : PlayerMsg) :
    countReschedules (Player.update s d m).effects =
      if isSaveState m then 1 else 0 := by
  cases m with
  | PlayHandle h =>
    simp [Player.update, play_article_handle, pause, countReschedules,
      isReschedule, isSaveState]
  | JumpForward =>
    simp [Player.update, jump_forward, jump_offset, set_current_time,
      countReschedules, isReschedule, isSaveState, List.countP_append]
    intro e he
    exact mem_update_playback_state_not_reschedule _ e he
  | JumpBackward =>
    simp [Player.update, jump_backward, jump_offset, set_current_time,
      countReschedules, isReschedule, isSaveState, List.countP_append]
    intro e he
    exact mem_update_playback_state_not_reschedule _ e he
  | UpdatePlaybackSpeed =>
    simp [Player.update, update_playback_speed, countReschedules, isReschedule,
      isSaveState, List.countP_append]
    intro e he
    exact mem_update_playback_state_not_reschedule _ e he
  | SetState st =>
    cases hnp : st.now_playing <;>
      simp [Player.update, hnp, set_current_time, set_playback_speed,
        set_audio_source_by_handle, countReschedules, isReschedule, isSaveState]
  | SaveState e =>
    simp [Player.update, run_after_delay, countReschedules, isReschedule,
      isSaveState]

/-- Every reschedule call issued by `Player::update` uses the fixed
autosave interval. -/
lemma reschedule_interval_update (s : PlayerState) (d : Dom) (m : PlayerMsg)
    (n : Int) (hn : Effect.runAfterDelay n ∈ (Player.update s d m).effects) :
    n = PLAYER_STATE_SAVE_FREQ := by
  cases m with
  | PlayHandle h =>
    simp [Player.update, play_article_handle, pause] at hn
  | JumpForward =>
    simp [Player.update, jump_forward, jump_offset, set_current_time] at hn
    exact absurd hn (runAfterDelay_not_mem_update_playback_state _ n)
  | JumpBackward =>
    simp [Player.update, jump_backward, jump_offset, set_current_time] at hn
    exact absurd hn (runAfterDelay_not_mem_update_playback_state _ n)
  | UpdatePlaybackSpeed =>
    simp [Player.update, update_playback_speed] at hn
    exact absurd hn (runAfterDelay_not_mem_update_playback_state _ n)
  | SetState st =>
    cases hnp : st.now_playing <;>
      simp [Player.update, hnp, set_current_time, set_playback_speed,
        set_audio_source_by_handle] at hn
  | SaveState e =>
    simp [Player.update, run_after_delay] at hn
    exact hn

/-- Claim C6: `SaveState{elapsed}` overwrites `elapsed`, snapshots the full
updated state for persistence, and issues exactly one reschedule with the
fixed 10000 ms interval — so over any message sequence the number of
reschedule calls equals the number of `SaveState` messages, each with that
interval. -/
theorem C6_autosave_reschedule (s : PlayerState) (d : Dom) (e : F64)
    (msgs : List PlayerMsg) :
    ((Player.update s d (PlayerMsg.SaveState e)).state.elapsed = some e ∧
      (Player.update s d (PlayerMsg.SaveState e)).tasks =
        [PendingTask.saveStateTask (Player.update s d (PlayerMsg.SaveState e)).state] ∧
      (Player.update s d (PlayerMsg.SaveState e)).effects =
        [Effect.runAfterDelay 10000]) ∧
    countReschedules (processMsgs s d msgs).2.2 =
      msgs.countP (fun m => isSaveState m) ∧
    ∀ n : Int,
      Effect.runAfterDelay n ∈ (processMsgs s d msgs).2.2 → n = 10000 := by
  refine ⟨⟨?_, ?_, ?_⟩, ?_, ?_⟩
  · simp [Player.update]
  · simp [Player.update]
  · simp [Player.update, run_after_delay, PLAYER_STATE_SAVE_FREQ]
  · induction msgs generalizing s d with
    | nil => simp [processMsgs, countReschedules]
    | cons m ms ih =>
      simp only [processMsgs, List.countP_cons]
      rw [countReschedules, List.countP_append]
      rw [← countReschedules, ← countReschedules, countReschedules_update,
        ih (Player.update s d m).state (Player.update s d m).dom]
      cases hm : isSaveState m <;> simp [Nat.add_comm]
  · induction msgs generalizing s d with
    | nil => simp [processMsgs]
    | cons m ms ih =>
      intro n hn
      simp only [processMsgs, List.mem_append] at hn
      rcases hn with hn | hn
      · exact reschedule_interval_update s d m n hn
      · exact ih (Player.update s d m).state (Player.update s d m).dom n hn

/-- Witness for C6: a SaveState overwrites elapsed, and a sequence with two
SaveState messages among three issues exactly two reschedules. -/
theorem C6_autosave_reschedule_witness :
    (Player.update PlayerState.default
      { audio :=
          { currentTime := F64.finite 0, duration := F64.finite 100,
            playbackRate := F64.finite 1, defaultPlaybackRate := F64.finite 1,
            src := none, paused := false },
        speedSelectorValue := "1" }
      (PlayerMsg.SaveState (F64.finite 3))).state.elapsed =
        some (F64.finite 3) ∧
    countReschedules
      (processMsgs PlayerState.default
        { audio :=
            { currentTime := F64.finite 0, duration := F64.finite 100,
              playbackRate := F64.finite 1, defaultPlaybackRate := F64.finite 1,
              src := none, paused := false },
          speedSelectorValue := "1" }
        [PlayerMsg.SaveState (F64.finite 3), PlayerMsg.PlayHandle { val := "a" },
          PlayerMsg.SaveState (F64.finite 7)]).2.2 = 2 := by
  refine ⟨(C6_autosave_reschedule PlayerState.default
    { audio :=
        { currentTime := F64.finite 0, duration := F64.finite 100,
          playbackRate := F64.finite 1, defaultPlaybackRate := F64.finite 1,
          src := none, paused := false },
      speedSelectorValue := "1" } (F64.finite 3) []).1.1, ?_⟩
  rw [(C6_autosave_reschedule PlayerState.default
    { audio :=
        { currentTime := F64.finite 0, duration := F64.finite 100,
          playbackRate := F64.finite 1, defaultPlaybackRate := F64.finite 1,
          src := none, paused := false },
      speedSelectorValue := "1" } (F64.finite 3)
    [PlayerMsg.SaveState (F64.finite 3), PlayerMsg.PlayHandle { val := "a" },
      PlayerMsg.SaveState (F64.finite 7)]).2.1]
  rfl

/-- Claim C7: restoring a state whose `now_playing` is a handle spawns the
source-install future, synchronously seeks to the saved `elapsed` and
applies the saved `playback_speed`, and neither the synchronous path nor
the resolution future ever invokes the device play operation; a successful
resolution installs the resolved article's bytes as the source. -/
theorem C7_set_state_no_autoplay (s : PlayerState) (d : Dom) (st : PlayerState)
    (h : CachedArticleHandle) (hnp : st.now_playing = some h) :
    (Player.update s d (PlayerMsg.SetState st)).tasks =
      [PendingTask.setSourceTask h] ∧
    (Player.update s d (PlayerMsg.SetState st)).effects =
      [Effect.setCurrentTime (st.elapsed.getD (F64.finite 0)),
        Effect.setPlaybackRate st.playback_speed] ∧
    Effect.playDevice ∉ (Player.update s d (PlayerMsg.SetState st)).effects ∧
    (∀ (a : AudioElem) (res : Except String CachedArticle),
      Effect.playDevice ∉ (run_set_source_task a res).2) ∧
    (∀ (a : AudioElem) (art : CachedArticle),
      Effect.setSrc art.audio_blob ∈ (run_set_source_task a (Except.ok art)).2) := by
  refine ⟨?_, ?_, ?_, fun a res => ?_, fun a art => ?_⟩
  · simp [Player.update, hnp, set_audio_source_by_handle]
  · simp [Player.update, hnp, set_current_time, set_playback_speed]
  · simp [Player.update, hnp, set_current_time, set_playback_speed]
  · cases res <;> simp [run_set_source_task, set_audio_source, pause]
  · simp [run_set_source_task, set_audio_source, pause]

/-- Witness for C7: restoring state (art-42, elapsed 12.5, speed 1.25). -/
theorem C7_set_state_no_autoplay_witness :
    (Player.update PlayerState.default
      { audio :=
          { currentTime := F64.finite 0, duration := F64.finite 100,
            playbackRate := F64.finite 1, defaultPlaybackRate := F64.finite 1,
            src := none, paused := false },
        speedSelectorValue := "1" }
      (PlayerMsg.SetState
        { now_playing := some { val := "art-42" },
          elapsed := some (F64.finite (25 / 2)),
          playback_speed := F64.finite (5 / 4) })).tasks =
      [PendingTask.setSourceTask { val := "art-42" }] ∧
    (Player.update PlayerState.default
      { audio :=
          { currentTime := F64.finite 0, duration := F64.finite 100,
            playbackRate := F64.finite 1, defaultPlaybackRate := F64.finite 1,
            src := none, paused := false },
        speedSelectorValue := "1" }
      (PlayerMsg.SetState
        { now_playing := some { val := "art-42" },
          elapsed := some (F64.finite (25 / 2)),
          playback_speed := F64.finite (5 / 4) })).effects =
      [Effect.setCurrentTime (F64.finite (25 / 2)),
        Effect.setPlaybackRate (F64.finite (5 / 4))] ∧
    Effect.playDevice ∉
      (run_set_source_task
        { currentTime := F64.finite 0, duration := F64.finite 100,
          playbackRate := F64.finite 1, defaultPlaybackRate := F64.finite 1,
          src := none, paused := false }
        (Except.ok { audio_blob := [1, 2, 3], title := "An Article" })).2 ∧
    Effect.setSrc [1, 2, 3] ∈
      (run_set_source_task
        { currentTime := F64.finite 0, duration := F64.finite 100,
          playbackRate := F64.finite 1, defaultPlaybackRate := F64.finite 1,
          src := none, paused := false }
        (Except.ok { audio_blob := [1, 2, 3], title := "An Article" })).2 := by
  have hc := C7_set_state_no_autoplay PlayerState.default
    { audio :=
        { currentTime := F64.finite 0, duration := F64.finite 100,
          playbackRate := F64.finite 1, defaultPlaybackRate := F64.finite 1,
          src := none, paused := false },
      speedSelectorValue := "1" }
    { now_playing := some { val := "art-42" },
      elapsed := some (F64.finite (25 / 2)),
      playback_speed := F64.finite (5 / 4) }
    { val := "art-42" } rfl
  exact ⟨hc.1, hc.2.1, hc.2.2.2.1 _ _, hc.2.2.2.2 _ _⟩

/-- Claim C8: after `SetState`, the rendered now-playing label equals the
handle string inside `now_playing`, or the empty string when it is None. -/
theorem C8_view_label (s : PlayerState) (d : Dom) (st : PlayerState) :
    now_playing_str (Player.update s d (PlayerMsg.SetState st)).state =
      match st.now_playing with
      | some h => h.val
      | none => "" := by
  cases hnp : st.now_playing <;>
    simp [Player.update, hnp, now_playing_str]

/-- Claim C9: `Player::update` returns true exactly for `SetState`; all
other messages return false. -/
theorem C9_only_set_state_rerenders (s : PlayerState) (d : Dom) (m : PlayerMsg) :
    (Player.update s d m).rerender = true ↔ ∃ st, m = PlayerMsg.SetState st := by
  cases m with
  | SetState st =>
    cases hnp : st.now_playing <;> simp [Player.update, hnp]
  | PlayHandle h => simp [Player.update, play_article_handle, pause]
  | JumpForward => simp [Player.update, jump_forward, jump_offset, set_current_time]
  | JumpBackward => simp [Player.update, jump_backward, jump_offset, set_current_time]
  | UpdatePlaybackSpeed => simp [Player.update, update_playback_speed]
  | SaveState e => simp [Player.update]

/-- Claim C10: `SetState` with a handle but no saved elapsed seeks the
device to time 0.0. -/
theorem C10_missing_elapsed_defaults_to_zero (s : PlayerState) (d : Dom)
    (st : PlayerState) (h : CachedArticleHandle)
    (hnp : st.now_playing = some h) (hel : st.elapsed = none) :
    Effect.setCurrentTime (F64.finite 0) ∈
      (Player.update s d (PlayerMsg.SetState st)).effects := by
  simp [Player.update, hnp, hel, set_current_time, set_playback_speed]

/-- Witness for C10: restoring (art-42, no elapsed) seeks to 0. -/
theorem C10_missing_elapsed_defaults_to_zero_witness :
    Effect.setCurrentTime (F64.finite 0) ∈
      (Player.update PlayerState.default
        { audio :=
            { currentTime := F64.finite 0, duration := F64.finite 100,
              playbackRate := F64.finite 1, defaultPlaybackRate := F64.finite 1,
              src := none, paused := false },
          speedSelectorValue := "1" }
        (PlayerMsg.SetState
          { now_playing := some { val := "art-42" }, elapsed := none,
            playback_speed := F64.finite 1 })).effects :=
  C10_missing_elapsed_defaults_to_zero _ _ _ { val := "art-42" } rfl rfl
